import Mathlib

/-
Shallow embedding of src/platform/linux-generic/odp_system_info.c
(ODP ThunderX system-info discovery) and proofs about its behaviour.

External inputs of the C code (files read via fopen/fgets, the boot-time
cached CPU count, the sysconf page size, and the output of the external
cpuinfo parser collaborator) are collected in an `Env` record.  A file is
modelled as `Option` of its contents: `none` means fopen fails.  Text
sources read line by line with fgets are modelled as `List String`, one
entry per fgets result.  Compile-time configuration (#ifdef HAVE_THUNDERX,
the architecture test selecting the sysfs cache-line probe, and the
constants ODP_CACHE_LINE_SIZE, ODP_PAGE_SIZE, MAX_CPU_NUMBER, whose
defining headers are not part of this repository fragment) is a `Config`
record.  C functions returning `int` while mutating the global
`system_info_t` become functions returning `Option (Int × SystemInfo)`;
the `none` result marks undefined behaviour (the one reachable case is
`fgets` on a NULL stream in `default_huge_page_size`).
-/

set_option autoImplicit false

namespace OdpSystemInfo

/-- Compile-time configuration of the build.  `sysfsCache` is the
architecture test `__x86_64__ || __i386__ || __OCTEON__ || __powerpc__`
selecting the sysfs cache-line probe; `haveThunderx` is HAVE_THUNDERX.
Modelled from the spec: the constants `odpCacheLineSize` (ODP_CACHE_LINE_SIZE),
`odpPageSize` (ODP_PAGE_SIZE) and `maxCpuNumber` (MAX_CPU_NUMBER) come from
headers outside this fragment and are kept abstract. -/
structure Config where
  sysfsCache : Bool
  haveThunderx : Bool
  odpCacheLineSize : Int
  odpPageSize : Nat
  maxCpuNumber : Nat

/-- The external inputs consumed by one run of odp_system_info_init. -/
structure Env where
  num_cpus_installed : Int
  sc_pagesize : Int
  cache_lnsz_file : Option String
  mounts : Option (List String)
  meminfo : Option (List String)
  cpuinfo_opens : Bool
  parsed_hz : Nat → Nat
  parsed_model : Nat → Option String

/-- Modelled from the spec: the process-wide `system_info_t` record, whose
declaring header is not part of this fragment.  Fields follow the spec's
data model (section 3): per-CPU sequences indexed by logical CPU id,
`huge_page_dir` an optional string. -/
structure SystemInfo where
  cpu_count : Int
  cache_line_size : Int
  page_size : Nat
  default_huge_page_size : Nat
  huge_page_dir : Option String
  cpu_hz_max : Nat → Nat
  model_str : Nat → Option String

/-- The record after memset to zero at the top of odp_system_info_init. -/
def zeroSystemInfo : SystemInfo where
  cpu_count := 0
  cache_line_size := 0
  page_size := 0
  default_huge_page_size := 0
  huge_page_dir := none
  cpu_hz_max := fun _ => 0
  model_str := fun _ => none

/-- Whitespace as recognised by C isspace / scanf whitespace directives. -/
def isSpace (c : Char) : Bool :=
  c = ' ' || c = '\t' || c = '\n' || c = '\r' || c = '\x0b' || c = '\x0c'

/-- Value of a digit character in the given base, none if not a digit. -/
def digitVal (base : Nat) (c : Char) : Option Nat :=
  if '0' ≤ c ∧ c ≤ '9' then
    if c.toNat - '0'.toNat < base then some (c.toNat - '0'.toNat) else none
  else if 'a' ≤ c ∧ c ≤ 'f' then
    if c.toNat - 'a'.toNat + 10 < base then some (c.toNat - 'a'.toNat + 10) else none
  else if 'A' ≤ c ∧ c ≤ 'F' then
    if c.toNat - 'A'.toNat + 10 < base then some (c.toNat - 'A'.toNat + 10) else none
  else none

/-- Accumulate the longest run of digits of the given base. -/
def scanNatAux (base : Nat) : List Char → Nat → Nat
  | [], acc => acc
  | c :: t, acc =>
    match digitVal base c with
    | some v => scanNatAux base t (acc * base + v)
    | none => acc

/-- Unsigned part of strtol-with-base-0 as used by sscanf %i: a 0x/0X
prefix selects hexadecimal, a leading 0 selects octal, otherwise decimal
(at least one digit required). -/
def parseUnsigned : List Char → Option Nat
  | '0' :: 'x' :: t => some (scanNatAux 16 t 0)
  | '0' :: 'X' :: t => some (scanNatAux 16 t 0)
  | '0' :: t => some (scanNatAux 8 t 0)
  | cs => if (digitVal 10 (cs.headD ' ')).isSome then some (scanNatAux 10 cs 0) else none

/-- sscanf(str, "%i", &size): skip leading whitespace, optional sign,
integer with base prefix; none when no conversion happens. -/
def parseCInt (cs : List Char) : Option Int :=
  match cs.dropWhile isSpace with
  | '-' :: t => (parseUnsigned t).map (fun n => -(n : Int))
  | '+' :: t => (parseUnsigned t).map (fun n => (n : Int))
  | rest => (parseUnsigned rest).map (fun n => (n : Int))

/-- Characters of the first line of a buffer, newline included. -/
def takeLine : List Char → List Char
  | [] => []
  | c :: t => if c = '\n' then [c] else c :: takeLine t

/-- fgets(str, 128, file) on the start of a file: first line, at most 127
characters. -/
def fgetsLine (cs : List Char) : List Char := (takeLine cs).take 127

/-- systemcpu_cache_line_size.  On the sysfs architectures: open
CACHE_LNSZ_FILE (0 when absent), fgets the first line, sscanf "%i"
(0 when the parse fails or the file is empty).  On other architectures the
compile-time fallback: ODP_CACHE_LINE_SIZE under HAVE_THUNDERX, else 64. -/
def systemcpu_cache_line_size (cfg : Config) (env : Env) : Int :=
  if cfg.sysfsCache then
    match env.cache_lnsz_file with
    | none => 0
    | some content =>
      match fgetsLine content.data with
      | [] => 0
      | cs =>
        match parseCInt cs with
        | some v => v
        | none => 0
  else if cfg.haveThunderx then cfg.odpCacheLineSize
  else 64

/-- sysconf_cpu_count: returns the boot-time cached
odp_global_data.num_cpus_installed. -/
def sysconf_cpu_count (env : Env) : Int :=
  env.num_cpus_installed

/-- strtok(line, " ") exhaustively: maximal runs of non-space characters. -/
def splitSpacesAux : List Char → List Char → List (List Char)
  | [], acc => if acc.isEmpty then [] else [acc.reverse]
  | c :: t, acc =>
    if c = ' ' then
      if acc.isEmpty then splitSpacesAux t [] else acc.reverse :: splitSpacesAux t []
    else splitSpacesAux t (c :: acc)

/-- The whitespace-separated tokens of a mount-table line (strtok with
delimiter " "; the trailing newline stays attached to the last token). -/
def strtokFields (line : String) : List String :=
  (splitSpacesAux line.data []).map String.mk

/-- Result of the huge_page_dir scan.  The C function returns -1 with a
distinct diagnostic for the fopen failure, the short-line parse error and
the exhausted scan, and 0 after storing the mount point on a match. -/
inductive HugeDirResult where
  | found (dir : String)
  | parseErr (line : String)
  | ioErr
  | notFound
  deriving DecidableEq

/-- True exactly on the success (found) outcome. -/
def HugeDirResult.isFound : HugeDirResult → Bool
  | .found _ => true
  | _ => false

/-- Loop body of huge_page_dir: per line, collect the first three strtok
tokens; fewer than three is the parse-error return; a third token equal to
"hugetlbfs" records the second token (the mount point) and stops. -/
def huge_page_dir_scan : List String → HugeDirResult
  | [] => .notFound
  | line :: rest =>
    match strtokFields line with
    | _ :: c1 :: c2 :: _ =>
      if c2 = "hugetlbfs" then .found c1 else huge_page_dir_scan rest
    | _ => .parseErr line

/-- huge_page_dir: fopen("/proc/mounts") then the line scan. -/
def huge_page_dir (mounts : Option (List String)) : HugeDirResult :=
  match mounts with
  | none => .ioErr
  | some lines => huge_page_dir_scan lines

/-- Drop a literal character sequence from the front, none on mismatch. -/
def dropLit : List Char → List Char → Option (List Char)
  | [], cs => some cs
  | _ :: _, [] => none
  | l :: ls, c :: cs => if c = l then dropLit ls cs else none

/-- sscanf(str, "Hugepagesize:   %8lu kB", &sz) == 1: the literal prefix
must match exactly, the format whitespace and the %lu whitespace skip
merge into one skip, the conversion reads at most 8 characters and needs
at least one digit; the trailing " kB" cannot lower the return value below
1 once the conversion succeeded. -/
def matchHugepagesize (line : String) : Option Nat :=
  match dropLit ("Hugepagesize:".data) line.data with
  | none => none
  | some rest =>
    match (rest.dropWhile isSpace).take 8 with
    | ds =>
      if (digitVal 10 (ds.headD ' ')).isSome then some (scanNatAux 10 ds 0) else none

/-- Line loop of default_huge_page_size: first matching line wins, value
converted from kB to bytes; 0 after the whole source is scanned. -/
def scanMeminfo : List String → Nat
  | [] => 0
  | l :: t =>
    match matchHugepagesize l with
    | some sz => sz * 1024
    | none => scanMeminfo t

/-- default_huge_page_size.  The source calls fopen("/proc/meminfo")
without checking the result and passes it straight to fgets, so an
unopenable meminfo is undefined behaviour, modelled as none. -/
def default_huge_page_size (meminfo : Option (List String)) : Option Nat :=
  match meminfo with
  | none => none
  | some lines => some (scanMeminfo lines)

/-- Modelled from the spec: the external per-architecture parser
collaborator (cpuinfo_parser) populates cpu_hz_max and model_str for each
discovered core, ignoring indices at or beyond MAX_CPU_NUMBER. -/
def cpuinfoParse (cfg : Config) (env : Env) (s : SystemInfo) : SystemInfo :=
  { s with
    cpu_hz_max := fun i => if i < cfg.maxCpuNumber then env.parsed_hz i else s.cpu_hz_max i
    model_str := fun i => if i < cfg.maxCpuNumber then env.parsed_model i else s.model_str i }

/-- systemcpu: store the boot-time CPU count (0 is fatal), store the
probed cache line size (0 is fatal), then fail when it differs from
ODP_CACHE_LINE_SIZE — note the store happens before the comparison, so the
failure state keeps the mismatched value — and finally record the default
huge page size.  Each returned state carries exactly the fields the C code
has assigned by that return. -/
def systemcpu (cfg : Config) (env : Env) (sysinfo : SystemInfo) : Option (Int × SystemInfo) :=
  if sysconf_cpu_count env = 0 then some (-1, sysinfo)
  else
    if systemcpu_cache_line_size cfg env = 0 then
      some (-1, { sysinfo with cpu_count := sysconf_cpu_count env })
    else
      if systemcpu_cache_line_size cfg env ≠ cfg.odpCacheLineSize then
        some (-1, { sysinfo with
                      cpu_count := sysconf_cpu_count env
                      cache_line_size := systemcpu_cache_line_size cfg env })
      else
        match default_huge_page_size env.meminfo with
        | none => none
        | some hp =>
          some (0, { sysinfo with
                       cpu_count := sysconf_cpu_count env
                       cache_line_size := systemcpu_cache_line_size cfg env
                       default_huge_page_size := hp })

/-- Tail of odp_system_info_init after the page-size and huge-page-dir
steps: open /proc/cpuinfo (fatal when it cannot be opened), run the
external parser on it, then systemcpu. -/
def init_cpuinfo_systemcpu (cfg : Config) (env : Env) (s : SystemInfo) :
    Option (Int × SystemInfo) :=
  if env.cpuinfo_opens then systemcpu cfg env (cpuinfoParse cfg env s)
  else some (-1, s)

/-- odp_system_info_init: memset the record to zero; under HAVE_THUNDERX
resolve the sysconf page size (negative is fatal) and the huge-page mount
directory (any non-found outcome is fatal), otherwise use ODP_PAGE_SIZE;
then the cpuinfo parse and systemcpu. -/
def odp_system_info_init (cfg : Config) (env : Env) : Option (Int × SystemInfo) :=
  if cfg.haveThunderx then
    if env.sc_pagesize < 0 then some (-1, zeroSystemInfo)
    else
      match huge_page_dir env.mounts with
      | .found dir =>
        init_cpuinfo_systemcpu cfg env
          { zeroSystemInfo with
              page_size := env.sc_pagesize.toNat
              huge_page_dir := some dir }
      | _ => some (-1, { zeroSystemInfo with page_size := env.sc_pagesize.toNat })
  else
    init_cpuinfo_systemcpu cfg env { zeroSystemInfo with page_size := cfg.odpPageSize }

/-- odp_cpu_hz_max_id: bounds-checked read of cpu_hz_max, 0 out of range. -/
def odp_cpu_hz_max_id (cfg : Config) (s : SystemInfo) (id : Int) : Nat :=
  if 0 ≤ id ∧ id < (cfg.maxCpuNumber : Int) then s.cpu_hz_max id.toNat else 0

/-- odp_cpu_hz_max: the indexed accessor at CPU id 0. -/
def odp_cpu_hz_max (cfg : Config) (s : SystemInfo) : Nat :=
  odp_cpu_hz_max_id cfg s 0

/-- odp_sys_huge_page_size accessor. -/
def odp_sys_huge_page_size (s : SystemInfo) : Nat :=
  s.default_huge_page_size

/-- odp_sys_huge_page_dir accessor (HAVE_THUNDERX only in the source). -/
def odp_sys_huge_page_dir (s : SystemInfo) : Option String :=
  s.huge_page_dir

/-- odp_sys_page_size accessor. -/
def odp_sys_page_size (s : SystemInfo) : Nat :=
  s.page_size

/-- odp_cpu_model_str_id: bounds-checked read of model_str, NULL (none)
out of range. -/
def odp_cpu_model_str_id (cfg : Config) (s : SystemInfo) (id : Int) : Option String :=
  if 0 ≤ id ∧ id < (cfg.maxCpuNumber : Int) then s.model_str id.toNat else none

/-- odp_cpu_model_str: the indexed accessor at CPU id 0. -/
def odp_cpu_model_str (cfg : Config) (s : SystemInfo) : Option String :=
  odp_cpu_model_str_id cfg s 0

/-- odp_sys_cache_line_size accessor. -/
def odp_sys_cache_line_size (s : SystemInfo) : Int :=
  s.cache_line_size

/-- odp_cpu_count accessor. -/
def odp_cpu_count (s : SystemInfo) : Int :=
  s.cpu_count

/-- All mandatory probes other than the cache-line comparison succeed:
under HAVE_THUNDERX the page size is nonnegative and a hugetlbfs mount is
found; /proc/cpuinfo opens; the boot-time CPU count is nonzero; and
/proc/meminfo opens (its fopen result is used unchecked by the source). -/
def mandatory_ok (cfg : Config) (env : Env) : Prop :=
  (cfg.haveThunderx = true → 0 ≤ env.sc_pagesize ∧ (huge_page_dir env.mounts).isFound = true)
  ∧ env.cpuinfo_opens = true
  ∧ env.num_cpus_installed ≠ 0
  ∧ env.meminfo.isSome = true

/-- A successful init outcome carries a cpu_count of at least 1. -/
def successCountGe1 : Option (Int × SystemInfo) → Prop
  | none => True
  | some r => r.1 = 0 → 1 ≤ odp_cpu_count r.2

instance (cfg : Config) (env : Env) : Decidable (mandatory_ok cfg env) := by
  unfold mandatory_ok
  infer_instance

/-- A build configuration with the sysfs cache-line probe (x86-style). -/
def cfgSysfs : Config where
  sysfsCache := true
  haveThunderx := false
  odpCacheLineSize := 64
  odpPageSize := 4096
  maxCpuNumber := 128

/-- The ThunderX build configuration: no sysfs probe, HAVE_THUNDERX set. -/
def cfgThx : Config where
  sysfsCache := false
  haveThunderx := true
  odpCacheLineSize := 128
  odpPageSize := 65536
  maxCpuNumber := 96

/-- An environment on which every probe succeeds for cfgSysfs. -/
def envOkSysfs : Env where
  num_cpus_installed := 4
  sc_pagesize := 4096
  cache_lnsz_file := some "64\n"
  mounts := some ["none /dev/hugepages hugetlbfs rw 0 0\n"]
  meminfo := some ["Hugepagesize:       2048 kB\n"]
  cpuinfo_opens := true
  parsed_hz := fun _ => 2000000000
  parsed_model := fun _ => some "ARMv8 Processor"

/-- The same environment without the sysfs cache-line file, as on ThunderX. -/
def envOkThx : Env :=
  { envOkSysfs with cache_lnsz_file := none }

/-- Case analysis on odp_system_info_init: every outcome is either an
early some (-1, s) failure or the result of systemcpu on some state. -/
theorem init_cases (cfg : Config) (env : Env) (P : Option (Int × SystemInfo) → Prop)
    (hfail : ∀ s, P (some (-1, s)))
    (hsys : ∀ s, P (systemcpu cfg env s)) :
    P (odp_system_info_init cfg env) := by
  unfold odp_system_info_init init_cpuinfo_systemcpu
  split
  · split
    · exact hfail _
    · split
      · split
        · exact hsys _
        · exact hfail _
      · exact hfail _
  · split
    · exact hsys _
    · exact hfail _

/-- systemcpu reports failure whenever the boot-time CPU count is zero. -/
theorem systemcpu_fst_of_count_zero (cfg : Config) (env : Env) (s : SystemInfo)
    (h : env.num_cpus_installed = 0) :
    (systemcpu cfg env s).map Prod.fst = some (-1) := by
  simp [systemcpu, sysconf_cpu_count, h]

/-- systemcpu reports failure whenever the probed cache line size differs
from ODP_CACHE_LINE_SIZE. -/
theorem systemcpu_fst_of_cls_ne (cfg : Config) (env : Env) (s : SystemInfo)
    (h : systemcpu_cache_line_size cfg env ≠ cfg.odpCacheLineSize) :
    (systemcpu cfg env s).map Prod.fst = some (-1) := by
  by_cases h1 : env.num_cpus_installed = 0
  · simp [systemcpu, sysconf_cpu_count, h1]
  · by_cases h2 : systemcpu_cache_line_size cfg env = 0
    · simp [systemcpu, sysconf_cpu_count, h1, h2]
    · simp [systemcpu, sysconf_cpu_count, h1, h2, h]

/-- Lifting pointwise systemcpu failure to the whole initialisation. -/
theorem init_fst_of_systemcpu (cfg : Config) (env : Env)
    (h : ∀ s, (systemcpu cfg env s).map Prod.fst = some (-1)) :
    (odp_system_info_init cfg env).map Prod.fst = some (-1) :=
  init_cases cfg env (fun o => o.map Prod.fst = some (-1)) (fun _ => rfl) h

/-- The isFound test characterises the found outcome. -/
theorem isFound_eq_true (r : HugeDirResult) (h : r.isFound = true) :
    ∃ d, r = HugeDirResult.found d := by
  cases r with
  | found d => exact ⟨d, rfl⟩
  | parseErr l => simp [HugeDirResult.isFound] at h
  | ioErr => simp [HugeDirResult.isFound] at h
  | notFound => simp [HugeDirResult.isFound] at h

/-- Under HAVE_THUNDERX, any non-found outcome of the mount scan aborts
initialisation. -/
theorem init_fst_of_hugedir (cfg : Config) (env : Env)
    (hT : cfg.haveThunderx = true)
    (hnf : (huge_page_dir env.mounts).isFound = false) :
    (odp_system_info_init cfg env).map Prod.fst = some (-1) := by
  by_cases hpg : env.sc_pagesize < 0
  · simp [odp_system_info_init, hT, hpg]
  · cases hd : huge_page_dir env.mounts with
    | found d => rw [hd] at hnf; simp [HugeDirResult.isFound] at hnf
    | parseErr l => simp [odp_system_info_init, hT, hpg, hd]
    | ioErr => simp [odp_system_info_init, hT, hpg, hd]
    | notFound => simp [odp_system_info_init, hT, hpg, hd]

/-- A line with at least three tokens none of which makes a hugetlbfs
match lets the scan continue. -/
theorem huge_page_dir_scan_cons_skip (l : String) (t : List String)
    (hlen : 3 ≤ (strtokFields l).length)
    (hne : (strtokFields l).get? 2 ≠ some "hugetlbfs") :
    huge_page_dir_scan (l :: t) = huge_page_dir_scan t := by
  rcases hf : strtokFields l with _ | ⟨a, _ | ⟨b, _ | ⟨c, rest⟩⟩⟩
  · rw [hf] at hlen; simp at hlen
  · rw [hf] at hlen; simp at hlen
  · rw [hf] at hlen; simp at hlen
  · rw [hf] at hne
    simp only [List.get?] at hne
    have hc : c ≠ "hugetlbfs" := by
      intro h
      exact hne (by rw [h])
    simp only [huge_page_dir_scan, hf]
    rw [if_neg hc]

/-- A fully scanned table with no hugetlbfs line yields notFound. -/
theorem huge_page_dir_scan_notFound (lines : List String)
    (h : ∀ l ∈ lines, 3 ≤ (strtokFields l).length ∧
      (strtokFields l).get? 2 ≠ some "hugetlbfs") :
    huge_page_dir_scan lines = HugeDirResult.notFound := by
  induction lines with
  | nil => rfl
  | cons l t ih =>
    obtain ⟨hlen, hne⟩ := h l (List.mem_cons_self l t)
    rw [huge_page_dir_scan_cons_skip l t hlen hne]
    exact ih (fun x hx => h x (List.mem_cons_of_mem l hx))

/-- The scan returns the mount point of the first hugetlbfs line. -/
theorem huge_page_dir_scan_found (pre : List String) (line : String) (post : List String)
    (hpre : ∀ l ∈ pre, 3 ≤ (strtokFields l).length ∧
      (strtokFields l).get? 2 ≠ some "hugetlbfs")
    (c0 c1 c2 : String) (rest : List String)
    (hf : strtokFields line = c0 :: c1 :: c2 :: rest)
    (hfs : c2 = "hugetlbfs") :
    huge_page_dir_scan (pre ++ line :: post) = HugeDirResult.found c1 := by
  induction pre with
  | nil =>
    simp only [List.nil_append, huge_page_dir_scan, hf]
    rw [if_pos hfs]
  | cons l t ih =>
    obtain ⟨hlen, hne⟩ := hpre l (List.mem_cons_self l t)
    rw [List.cons_append, huge_page_dir_scan_cons_skip l _ hlen hne]
    exact ih (fun x hx => hpre x (List.mem_cons_of_mem l hx))

/-- The scan aborts with the parse error on the first short line reached. -/
theorem huge_page_dir_scan_parseErr (pre : List String) (line : String) (post : List String)
    (hpre : ∀ l ∈ pre, 3 ≤ (strtokFields l).length ∧
      (strtokFields l).get? 2 ≠ some "hugetlbfs")
    (hbad : (strtokFields line).length < 3) :
    huge_page_dir_scan (pre ++ line :: post) = HugeDirResult.parseErr line := by
  induction pre with
  | nil =>
    rcases hf : strtokFields line with _ | ⟨a, _ | ⟨b, _ | ⟨c, rest⟩⟩⟩
    · simp only [List.nil_append, huge_page_dir_scan, hf]
    · simp only [List.nil_append, huge_page_dir_scan, hf]
    · simp only [List.nil_append, huge_page_dir_scan, hf]
    · rw [hf] at hbad
      exact absurd hbad (by simp)
  | cons l t ih =>
    obtain ⟨hlen, hne⟩ := hpre l (List.mem_cons_self l t)
    rw [List.cons_append, huge_page_dir_scan_cons_skip l _ hlen hne]
    exact ih (fun x hx => hpre x (List.mem_cons_of_mem l hx))

/-- C10: for every state of the system-info store, the no-argument
accessors equal their indexed counterparts applied to CPU id 0:
odp_cpu_hz_max() = odp_cpu_hz_max_id(0) and
odp_cpu_model_str() = odp_cpu_model_str_id(0). -/
theorem no_arg_accessors_are_id_zero (cfg : Config) (s : SystemInfo) :
    odp_cpu_hz_max cfg s = odp_cpu_hz_max_id cfg s 0 ∧
    odp_cpu_model_str cfg s = odp_cpu_model_str_id cfg s 0 :=
  ⟨rfl, rfl⟩

/-- C4: for every integer id outside the range from 0 up to but not
including MAX_CPU_NUMBER — negative ids included — odp_cpu_model_str_id
returns NULL (none) and odp_cpu_hz_max_id returns 0, for any state of the
store, so no out-of-bounds read of the per-CPU arrays happens. -/
theorem out_of_range_accessors (cfg : Config) (s : SystemInfo) (id : Int)
    (h : id < 0 ∨ (cfg.maxCpuNumber : Int) ≤ id) :
    odp_cpu_model_str_id cfg s id = none ∧ odp_cpu_hz_max_id cfg s id = 0 := by
  constructor
  · unfold odp_cpu_model_str_id
    rw [if_neg]
    omega
  · unfold odp_cpu_hz_max_id
    rw [if_neg]
    omega

/-- C4 witness: id -1 is rejected by both accessors on a sample config. -/
theorem out_of_range_accessors_witness :
    odp_cpu_model_str_id cfgSysfs zeroSystemInfo (-1) = none ∧
    odp_cpu_hz_max_id cfgSysfs zeroSystemInfo (-1) = 0 :=
  out_of_range_accessors cfgSysfs zeroSystemInfo (-1) (by decide)

/-- C3 counterexample: on a sysfs architecture with the coherency-line-size
file absent, the probe returns 0 (no fallback to 64) and initialization
aborts, refuting the claim that the absence is non-fatal. -/
theorem absent_cache_file_fatal_cex :
    systemcpu_cache_line_size cfgSysfs { envOkSysfs with cache_lnsz_file := none } = 0 ∧
    (odp_system_info_init cfgSysfs { envOkSysfs with cache_lnsz_file := none }).map
      Prod.fst = some (-1) := by
  constructor
  · rfl
  · decide

/-- C3 amended: on architectures with the sysfs probe, an absent
coherency-line-size file makes the probe return 0, which is fatal —
initialization aborts; the fixed default (ODP_CACHE_LINE_SIZE under
HAVE_THUNDERX, else 64) is used only on architectures compiled without
the sysfs probe. -/
theorem absent_cache_file_aborts (cfg : Config) (env : Env)
    (hsys : cfg.sysfsCache = true) (hfile : env.cache_lnsz_file = none) :
    systemcpu_cache_line_size cfg env = 0 ∧
    (odp_system_info_init cfg env).map Prod.fst = some (-1) := by
  have h1 : systemcpu_cache_line_size cfg env = 0 := by
    simp [systemcpu_cache_line_size, hsys, hfile]
  refine ⟨h1, init_fst_of_systemcpu cfg env (fun s => ?_)⟩
  by_cases hc : env.num_cpus_installed = 0
  · simp [systemcpu, sysconf_cpu_count, hc]
  · simp [systemcpu, sysconf_cpu_count, hc, h1]

/-- C3 amended witness: concrete sysfs build with the file missing. -/
theorem absent_cache_file_aborts_witness :
    systemcpu_cache_line_size cfgSysfs { envOkThx with num_cpus_installed := 2 } = 0 ∧
    (odp_system_info_init cfgSysfs { envOkThx with num_cpus_installed := 2 }).map
      Prod.fst = some (-1) :=
  absent_cache_file_aborts cfgSysfs { envOkThx with num_cpus_installed := 2 } rfl rfl

/-- C5 counterexample: a negative boot-time cached CPU count (-1, as left
by a failed sysconf) passes the zero-only guard, initialization succeeds
and odp_cpu_count() returns -1, refuting the claim that a non-positive
cpu_count never survives a successful initialization. -/
theorem negative_cpu_count_survives_cex :
    (odp_system_info_init cfgSysfs { envOkSysfs with num_cpus_installed := -1 }).map
      (fun r => (r.1, odp_cpu_count r.2)) = some (0, -1) := by
  decide

/-- C5 amended: initialization fails whenever the boot-time cached CPU
count is zero, so a zero cpu_count never survives; and whenever the cached
count is additionally nonnegative, any successful initialization leaves
odp_cpu_count() at least 1.  (A negative cached count is not guarded.) -/
theorem cpu_count_zero_guard (cfg : Config) (env : Env) :
    (env.num_cpus_installed = 0 →
      (odp_system_info_init cfg env).map Prod.fst = some (-1)) ∧
    (0 ≤ env.num_cpus_installed → successCountGe1 (odp_system_info_init cfg env)) := by
  constructor
  · intro h
    exact init_fst_of_systemcpu cfg env (fun s => systemcpu_fst_of_count_zero cfg env s h)
  · intro hge
    refine init_cases cfg env successCountGe1 (fun s => ?_) (fun s => ?_)
    · simp [successCountGe1]
    · by_cases hc : env.num_cpus_installed = 0
      · simp [systemcpu, sysconf_cpu_count, hc, successCountGe1]
      · by_cases h2 : systemcpu_cache_line_size cfg env = 0
        · simp [systemcpu, sysconf_cpu_count, hc, h2, successCountGe1]
        · by_cases h3 : systemcpu_cache_line_size cfg env = cfg.odpCacheLineSize
          · have h4 : cfg.odpCacheLineSize ≠ 0 := h3 ▸ h2
            cases hml : env.meminfo with
            | none =>
              simp [systemcpu, sysconf_cpu_count, hc, h2, h3, h4,
                default_huge_page_size, hml, successCountGe1]
            | some ml =>
              simp [systemcpu, sysconf_cpu_count, hc, h2, h3, h4,
                default_huge_page_size, hml, successCountGe1, odp_cpu_count]
              omega
          · simp [systemcpu, sysconf_cpu_count, hc, h2, h3, successCountGe1]

/-- C5 amended witness: the zero guard fires, and a positive cached count
yields a successful initialization satisfying the count bound. -/
theorem cpu_count_zero_guard_witness :
    (odp_system_info_init cfgSysfs { envOkSysfs with num_cpus_installed := 0 }).map
      Prod.fst = some (-1) ∧
    successCountGe1 (odp_system_info_init cfgSysfs envOkSysfs) :=
  ⟨(cpu_count_zero_guard cfgSysfs { envOkSysfs with num_cpus_installed := 0 }).1 rfl,
   (cpu_count_zero_guard cfgSysfs envOkSysfs).2 (by decide)⟩

/-- C6: the claim is right about the no-matching-line case — the value is
swallowed to 0, odp_sys_huge_page_size() returns 0 and initialization
still succeeds — but wrong on the unopenable-meminfo case: the source
passes the unchecked fopen result to fgets, which is undefined behaviour
(modelled as the none outcome), not a swallowed failure. -/
theorem meminfo_swallow_and_crash :
    scanMeminfo ["MemTotal:  100 kB\n"] = 0 ∧
    (odp_system_info_init cfgThx { envOkThx with meminfo := some ["MemTotal:  100 kB\n"] }).map
      (fun r => (r.1, odp_sys_huge_page_size r.2)) = some (0, 0) ∧
    default_huge_page_size none = none ∧
    odp_system_info_init cfgThx { envOkThx with meminfo := none } = none := by
  refine ⟨rfl, by decide, rfl, rfl⟩

/-- C1: if the cache-line probe yields a value different from the compiled
ODP_CACHE_LINE_SIZE, odp_system_info_init fails; if it yields exactly the
compiled (positive) constant and all other mandatory probes succeed,
initialization succeeds and odp_sys_cache_line_size() returns exactly the
compiled value. -/
theorem cache_line_consistency_init (cfg : Config) (env : Env)
    (hpos : 0 < cfg.odpCacheLineSize) :
    (systemcpu_cache_line_size cfg env ≠ cfg.odpCacheLineSize →
      (odp_system_info_init cfg env).map Prod.fst = some (-1)) ∧
    (systemcpu_cache_line_size cfg env = cfg.odpCacheLineSize →
      mandatory_ok cfg env →
      (odp_system_info_init cfg env).map Prod.fst = some 0 ∧
      (odp_system_info_init cfg env).map (fun r => odp_sys_cache_line_size r.2) =
        some cfg.odpCacheLineSize) := by
  constructor
  · intro hne
    exact init_fst_of_systemcpu cfg env (fun s => systemcpu_fst_of_cls_ne cfg env s hne)
  · intro hcl hok
    obtain ⟨hThx, hcpu, hcnt, hmem⟩ := hok
    obtain ⟨ml, hml⟩ := Option.isSome_iff_exists.mp hmem
    have h0 : cfg.odpCacheLineSize ≠ 0 := by omega
    by_cases hT : cfg.haveThunderx = true
    · obtain ⟨hpg, hfound⟩ := hThx hT
      obtain ⟨d, hd⟩ := isFound_eq_true _ hfound
      constructor
      · simp [odp_system_info_init, hT, not_lt.mpr hpg, hd, init_cpuinfo_systemcpu,
          hcpu, systemcpu, sysconf_cpu_count, hcnt, hcl, h0,
          default_huge_page_size, hml]
      · simp [odp_system_info_init, hT, not_lt.mpr hpg, hd, init_cpuinfo_systemcpu,
          hcpu, systemcpu, sysconf_cpu_count, hcnt, hcl, h0,
          default_huge_page_size, hml, odp_sys_cache_line_size]
    · have hT2 : cfg.haveThunderx = false := by
        revert hT
        cases cfg.haveThunderx <;> simp
      constructor
      · simp [odp_system_info_init, hT2, init_cpuinfo_systemcpu,
          hcpu, systemcpu, sysconf_cpu_count, hcnt, hcl, h0,
          default_huge_page_size, hml]
      · simp [odp_system_info_init, hT2, init_cpuinfo_systemcpu,
          hcpu, systemcpu, sysconf_cpu_count, hcnt, hcl, h0,
          default_huge_page_size, hml, odp_sys_cache_line_size]

/-- C1 witness: a probe of 96 against compiled 64 aborts; a probe of 64
with the other probes fine succeeds, with the accessor returning 64. -/
theorem cache_line_consistency_init_witness :
    ((odp_system_info_init cfgSysfs { envOkSysfs with cache_lnsz_file := some "96\n" }).map
      Prod.fst = some (-1)) ∧
    ((odp_system_info_init cfgSysfs envOkSysfs).map Prod.fst = some 0 ∧
     (odp_system_info_init cfgSysfs envOkSysfs).map
       (fun r => odp_sys_cache_line_size r.2) = some 64) :=
  ⟨(cache_line_consistency_init cfgSysfs
      { envOkSysfs with cache_lnsz_file := some "96\n" } (by decide)).1 (by decide),
   (cache_line_consistency_init cfgSysfs envOkSysfs (by decide)).2 (by decide) (by decide)⟩

/-- C2 counterexample: with a probe of 128 against a compiled constant of
64, odp_system_info_init fails but the process-wide record is left
holding cpu_count 4 and the mismatched cache_line_size 128, refuting the
claim that no partially populated probe results are retained. -/
theorem mismatch_retains_state_cex :
    (odp_system_info_init cfgSysfs { envOkSysfs with cache_lnsz_file := some "128\n" }).map
      (fun r => (r.1, odp_cpu_count r.2, odp_sys_cache_line_size r.2)) =
      some (-1, 4, 128) := by
  decide

/-- C2 amended: when initialization fails with the cache-line mismatch
(probe nonzero and different from ODP_CACHE_LINE_SIZE, earlier probes
fine), the record does retain the partial probe results — cpu_count holds
the cached CPU count and cache_line_size the mismatched probed value; the
state is invalid only by the convention that the caller aborts on the
failure return, the failing call does not clear it. -/
theorem mismatch_retains_state (cfg : Config) (env : Env)
    (hpre : cfg.haveThunderx = true →
      0 ≤ env.sc_pagesize ∧ (huge_page_dir env.mounts).isFound = true)
    (hcpu : env.cpuinfo_opens = true)
    (hcnt : env.num_cpus_installed ≠ 0)
    (hne : systemcpu_cache_line_size cfg env ≠ cfg.odpCacheLineSize)
    (h0 : systemcpu_cache_line_size cfg env ≠ 0) :
    (odp_system_info_init cfg env).map
      (fun r => (r.1, odp_cpu_count r.2, odp_sys_cache_line_size r.2)) =
      some (-1, env.num_cpus_installed, systemcpu_cache_line_size cfg env) := by
  by_cases hT : cfg.haveThunderx = true
  · obtain ⟨hpg, hfound⟩ := hpre hT
    obtain ⟨d, hd⟩ := isFound_eq_true _ hfound
    simp [odp_system_info_init, hT, not_lt.mpr hpg, hd, init_cpuinfo_systemcpu,
      hcpu, systemcpu, sysconf_cpu_count, hcnt, h0, hne, odp_cpu_count,
      odp_sys_cache_line_size]
  · have hT2 : cfg.haveThunderx = false := by
      revert hT
      cases cfg.haveThunderx <;> simp
    simp [odp_system_info_init, hT2, init_cpuinfo_systemcpu,
      hcpu, systemcpu, sysconf_cpu_count, hcnt, h0, hne, odp_cpu_count,
      odp_sys_cache_line_size]

/-- C2 amended witness: probe 32 against compiled 64, cached count 2. -/
theorem mismatch_retains_state_witness :
    (odp_system_info_init cfgSysfs
      { envOkSysfs with cache_lnsz_file := some "32\n", num_cpus_installed := 2 }).map
      (fun r => (r.1, odp_cpu_count r.2, odp_sys_cache_line_size r.2)) =
      some (-1, 2, 32) :=
  mismatch_retains_state cfgSysfs
    { envOkSysfs with cache_lnsz_file := some "32\n", num_cpus_installed := 2 }
    (fun hc => absurd hc (by decide)) rfl (by decide) (by decide) (by decide)

/-- C7: under HAVE_THUNDERX, when the mount table is scanned to the end
and no line has hugetlbfs as its third whitespace-separated field, the
scan reports notFound and odp_system_info_init fails. -/
theorem no_hugetlbfs_mount_fails (cfg : Config) (env : Env)
    (hT : cfg.haveThunderx = true)
    (lines : List String) (hm : env.mounts = some lines)
    (hl : ∀ l ∈ lines, 3 ≤ (strtokFields l).length ∧
      (strtokFields l).get? 2 ≠ some "hugetlbfs") :
    huge_page_dir env.mounts = HugeDirResult.notFound ∧
    (odp_system_info_init cfg env).map Prod.fst = some (-1) := by
  have hnf : huge_page_dir env.mounts = HugeDirResult.notFound := by
    rw [hm]
    exact huge_page_dir_scan_notFound lines hl
  exact ⟨hnf, init_fst_of_hugedir cfg env hT (by rw [hnf]; rfl)⟩

/-- C7 witness: a mount table holding only a proc line. -/
theorem no_hugetlbfs_mount_fails_witness :
    huge_page_dir (some ["proc /proc proc rw 0 0\n"]) = HugeDirResult.notFound ∧
    (odp_system_info_init cfgThx
      { envOkThx with mounts := some ["proc /proc proc rw 0 0\n"] }).map
      Prod.fst = some (-1) :=
  no_hugetlbfs_mount_fails cfgThx
    { envOkThx with mounts := some ["proc /proc proc rw 0 0\n"] }
    rfl ["proc /proc proc rw 0 0\n"] rfl (by decide)

/-- C8: the mount scan records the mount point (second field) of the
first line whose third field is hugetlbfs, and with the remaining probes
fine odp_system_info_init succeeds and odp_sys_huge_page_dir() returns
that mount point. -/
theorem first_hugetlbfs_mount_recorded (cfg : Config) (env : Env)
    (hT : cfg.haveThunderx = true)
    (pre : List String) (line : String) (post : List String)
    (c0 c1 c2 : String) (rest : List String)
    (hm : env.mounts = some (pre ++ line :: post))
    (hpre : ∀ l ∈ pre, 3 ≤ (strtokFields l).length ∧
      (strtokFields l).get? 2 ≠ some "hugetlbfs")
    (hf : strtokFields line = c0 :: c1 :: c2 :: rest)
    (hfs : c2 = "hugetlbfs")
    (hpg : 0 ≤ env.sc_pagesize)
    (hcpu : env.cpuinfo_opens = true)
    (hcnt : env.num_cpus_installed ≠ 0)
    (hcl : systemcpu_cache_line_size cfg env = cfg.odpCacheLineSize)
    (h0 : cfg.odpCacheLineSize ≠ 0)
    (ml : List String) (hml : env.meminfo = some ml) :
    huge_page_dir env.mounts = HugeDirResult.found c1 ∧
    (odp_system_info_init cfg env).map
      (fun r => (r.1, odp_sys_huge_page_dir r.2)) = some (0, some c1) := by
  have hd : huge_page_dir env.mounts = HugeDirResult.found c1 := by
    rw [hm]
    exact huge_page_dir_scan_found pre line post hpre c0 c1 c2 rest hf hfs
  refine ⟨hd, ?_⟩
  simp [odp_system_info_init, hT, not_lt.mpr hpg, hd, init_cpuinfo_systemcpu,
    hcpu, systemcpu, sysconf_cpu_count, hcnt, hcl, h0,
    default_huge_page_size, hml, odp_sys_huge_page_dir, cpuinfoParse]

/-- C8 witness: the mount-table line of the spec records /dev/hugepages. -/
theorem first_hugetlbfs_mount_recorded_witness :
    huge_page_dir (some ["none /dev/hugepages hugetlbfs rw 0 0\n"]) =
      HugeDirResult.found "/dev/hugepages" ∧
    (odp_system_info_init cfgThx envOkThx).map
      (fun r => (r.1, odp_sys_huge_page_dir r.2)) = some (0, some "/dev/hugepages") :=
  first_hugetlbfs_mount_recorded cfgThx envOkThx rfl
    [] "none /dev/hugepages hugetlbfs rw 0 0\n" []
    "none" "/dev/hugepages" "hugetlbfs" ["rw", "0", "0\n"]
    rfl (by decide) (by decide) rfl (by decide) rfl (by decide) (by decide) (by decide)
    ["Hugepagesize:       2048 kB\n"] rfl

/-- C9 counterexample: the mount table has a line with fewer than three
tokens, yet because a hugetlbfs line precedes it the scan never reaches
it and initialization succeeds — refuting the claim that any short line
anywhere in the table makes initialization fail. -/
theorem malformed_after_match_cex :
    (strtokFields "bad\n").length < 3 ∧
    (odp_system_info_init cfgThx
      { envOkThx with
          mounts := some ["none /dev/hugepages hugetlbfs rw 0 0\n", "bad\n"] }).map
      Prod.fst = some 0 := by
  decide

/-- C9 amended: a mount-table line with fewer than three whitespace
tokens aborts initialization (the ParseError return) when the scan
reaches it, i.e. when no earlier line already matched hugetlbfs; lines
after the first match are never examined. -/
theorem malformed_before_match_aborts (cfg : Config) (env : Env)
    (hT : cfg.haveThunderx = true)
    (pre : List String) (line : String) (post : List String)
    (hm : env.mounts = some (pre ++ line :: post))
    (hpre : ∀ l ∈ pre, 3 ≤ (strtokFields l).length ∧
      (strtokFields l).get? 2 ≠ some "hugetlbfs")
    (hbad : (strtokFields line).length < 3) :
    huge_page_dir env.mounts = HugeDirResult.parseErr line ∧
    (odp_system_info_init cfg env).map Prod.fst = some (-1) := by
  have hd : huge_page_dir env.mounts = HugeDirResult.parseErr line := by
    rw [hm]
    exact huge_page_dir_scan_parseErr pre line post hpre hbad
  exact ⟨hd, init_fst_of_hugedir cfg env hT (by rw [hd]; rfl)⟩

/-- C9 amended witness: a two-token line ahead of the hugetlbfs line
aborts even though a matching line follows it. -/
theorem malformed_before_match_aborts_witness :
    huge_page_dir (some ["none swap\n", "none /dev/hugepages hugetlbfs rw 0 0\n"]) =
      HugeDirResult.parseErr "none swap\n" ∧
    (odp_system_info_init cfgThx
      { envOkThx with
          mounts := some ["none swap\n", "none /dev/hugepages hugetlbfs rw 0 0\n"] }).map
      Prod.fst = some (-1) :=
  malformed_before_match_aborts cfgThx
    { envOkThx with
        mounts := some ["none swap\n", "none /dev/hugepages hugetlbfs rw 0 0\n"] }
    rfl [] "none swap\n" ["none /dev/hugepages hugetlbfs rw 0 0\n"]
    rfl (by decide) (by decide)

end OdpSystemInfo
